import Mathlib

set_option maxRecDepth 4000

/-!
Verification of the topic-validation, error-classification, rendering and
submission-dispatch logic of the `streamlit_app.py` front-end.

Strings are modelled as `List Char` (Python strings are sequences of code
points).  The Python method `str.strip()` is modelled over the ASCII whitespace
characters; `str.lower()` over `Char.toLower`.  The external crew object is
modelled as an `Except` value supplied to the submission handler, and the
Streamlit session state as an explicit record.
-/

/-- Whitespace predicate used by the Python method `str.strip()` (ASCII subset). -/
def isPySpace (c : Char) : Bool :=
  c = ' ' || c = '\t' || c = '\n' || c = '\r' || c = '\x0b' || c = '\x0c'

/-- Model of Python `str.strip()`: drop whitespace from both ends. -/
def pyStrip (l : List Char) : List Char :=
  ((l.dropWhile isPySpace).reverse.dropWhile isPySpace).reverse

/-- Model of Python `str.lower()` (ASCII case folding). -/
def pyLower (l : List Char) : List Char :=
  l.map Char.toLower

/-- Does `hay` begin with `needle`? -/
def startsWith : List Char → List Char → Bool
  | [], _ => true
  | _ :: _, [] => false
  | a :: as, b :: bs => a == b && startsWith as bs

/-- Model of the Python substring test `needle in hay`. -/
def containsSub (needle : List Char) : List Char → Bool
  | [] => needle.isEmpty
  | b :: bs => startsWith needle (b :: bs) || containsSub needle bs

/-- The characters rejected by the validator: `< > { } [ ]`. -/
def forbiddenChars : List Char :=
  ['<', '>', '\x7b', '\x7d', '[', ']']

/-- Model of `any(char in topic for char in ["<", ">", "{", "}", "[", "]"])`. -/
def hasForbidden (t : List Char) : Bool :=
  forbiddenChars.any (fun c => t.contains c)

def pleaseEnterMsg : List Char :=
  "Please enter a topic to research.".toList

def tooShortMsg : List Char :=
  "Topic must be at least 3 characters long.".toList

def tooLongMsg : List Char :=
  "Topic must be less than 200 characters long.".toList

def invalidCharsMsg : List Char :=
  "Topic contains invalid characters. Please use only letters, numbers, and basic punctuation.".toList

/-- Embedding of `validate_topic_input` from `streamlit_app.py`. -/
def validate_topic_input (topic : List Char) : Bool × List Char :=
  if topic.isEmpty || (pyStrip topic).isEmpty then
    (false, pleaseEnterMsg)
  else
    let t := pyStrip topic
    if t.length < 3 then
      (false, tooShortMsg)
    else if t.length > 200 then
      (false, tooLongMsg)
    else if hasForbidden t then
      (false, invalidCharsMsg)
    else
      (true, [])

example : validate_topic_input "Quantum Computing".toList = (true, []) := by decide

example : validate_topic_input "".toList = (false, pleaseEnterMsg) := by decide

example : validate_topic_input "AI".toList = (false, tooShortMsg) := by decide

example : validate_topic_input "<a".toList = (false, tooShortMsg) := by decide

example : validate_topic_input "Topic<x>".toList = (false, invalidCharsMsg) := by decide

example : validate_topic_input "  abc  ".toList = (true, []) := by decide

/-- The four guidance categories of `display_error_with_guidance`. -/
inductive Guidance where
  | apiConfig
  | connectivity
  | resource
  | generic
deriving DecidableEq, Repr

/-- Embedding of the classification branch of `display_error_with_guidance`:
case-insensitive substring tests on the error message, in source order. -/
def classifyError (msg : List Char) : Guidance :=
  let e := pyLower msg
  if containsSub "api".toList e || containsSub "key".toList e then
    Guidance.apiConfig
  else if containsSub "timeout".toList e || containsSub "connection".toList e then
    Guidance.connectivity
  else if containsSub "memory".toList e || containsSub "resource".toList e then
    Guidance.resource
  else
    Guidance.generic

example : classifyError "API key not found".toList = Guidance.apiConfig := by decide

example : classifyError "operation timeout, out of memory".toList = Guidance.connectivity := by
  decide

example : classifyError "something odd".toList = Guidance.generic := by decide

/-- The crew execution result: it either exposes a `raw` textual attribute or
only its generic `str(...)` form. -/
structure CrewResult where
  raw : Option (List Char)
  strForm : List Char

/-- Embedding of the content extraction in `display_research_output`:
`result.raw` when the attribute is present, else `str(result)`. -/
def extractContent (r : CrewResult) : List Char :=
  match r.raw with
  | some c => c
  | none => r.strForm

/-- A wall-clock instant at second resolution, as read from `datetime.now()`. -/
structure Timestamp where
  year : Nat
  month : Nat
  day : Nat
  hour : Nat
  minute : Nat
  second : Nat

/-- Decimal digits of `n` zero-padded to width 2 (strftime `%m %d %H %M %S`). -/
def pad2 (n : Nat) : List Char :=
  if n < 10 then '0' :: (toString n).toList else (toString n).toList

/-- Decimal digits of `n` zero-padded to width 4 (strftime `%Y`). -/
def pad4 (n : Nat) : List Char :=
  List.replicate (4 - (toString n).toList.length) '0' ++ (toString n).toList

/-- Embedding of `datetime.now().strftime("%Y%m%d_%H%M%S")`. -/
def strftimeCompact (t : Timestamp) : List Char :=
  pad4 t.year ++ pad2 t.month ++ pad2 t.day ++ '_' :: (pad2 t.hour ++ pad2 t.minute ++ pad2 t.second)

/-- Embedding of the `file_name` argument of the download button. -/
def reportFileName (t : Timestamp) : List Char :=
  "ai_news_report_".toList ++ strftimeCompact t ++ ".md".toList

/-- Embedding of the `mime` argument of the download button. -/
def reportMime : List Char :=
  "text/markdown".toList

example : reportFileName ⟨2024, 1, 1, 12, 0, 0⟩ = "ai_news_report_20240101_120000.md".toList := by
  decide

/-- The per-session UI state kept in `st.session_state`. -/
structure SessionState where
  researchCompleted : Bool
  lastTopic : List Char
deriving DecidableEq, Repr

/-- What the submission handler showed the user. -/
inductive Display where
  | validationError (msg : List Char)
  | report (content : List Char)
  | errorGuidance (banner : List Char) (g : Guidance)
deriving DecidableEq, Repr

/-- Observable outcome of one submission: the final session state, the inputs
mapping passed to the crew (if any), and what was displayed. -/
structure Outcome where
  state : SessionState
  dispatched : Option (List (List Char × List Char))
  display : Display
deriving DecidableEq, Repr

/-- Embedding of the `inputs` dict built in `main`; `yearStr` stands for
`str(datetime.now().year)`. -/
def buildInputs (topic yearStr : List Char) : List (List Char × List Char) :=
  [("topic".toList, pyStrip topic), ("current_year".toList, yearStr)]

/-- The banner `st.error(f"... An error occurred during research: {str(error)}")`. -/
def errorBanner (e : List Char) : List Char :=
  "❌ An error occurred during research: ".toList ++ e

/-- Embedding of the submission branch of `main` (`if submit_button:`):
validate, store the trimmed topic, dispatch to the crew, then render the
result or classify the caught exception.  `kickoff` stands for the outcome of
`crew_instance.crew().kickoff(inputs=inputs)`: a result object, or a raised
exception carrying a message. -/
def handleSubmission (st : SessionState) (topic yearStr : List Char)
    (kickoff : Except (List Char) CrewResult) : Outcome :=
  let v := validate_topic_input topic
  if v.1 then
    let st1 : SessionState := { st with lastTopic := pyStrip topic }
    match kickoff with
    | Except.ok result =>
        { state := { st1 with researchCompleted := true },
          dispatched := some (buildInputs topic yearStr),
          display := Display.report (extractContent result) }
    | Except.error e =>
        { state := st1,
          dispatched := some (buildInputs topic yearStr),
          display := Display.errorGuidance (errorBanner e) (classifyError e) }
  else
    { state := st, dispatched := none, display := Display.validationError v.2 }

example :
    handleSubmission ⟨false, []⟩ "AI".toList "2026".toList (Except.error "boom".toList) =
      { state := ⟨false, []⟩, dispatched := none,
        display := Display.validationError tooShortMsg } := by
  decide

lemma startsWith_self_append (n rest : List Char) : startsWith n (n ++ rest) = true := by
  induction n with
  | nil => cases rest <;> rfl
  | cons a as ih => simp [startsWith, ih]

lemma containsSub_of_parts (pre n suf : List Char) :
    containsSub n (pre ++ (n ++ suf)) = true := by
  induction pre with
  | nil =>
      cases h : n ++ suf with
      | nil =>
          rcases List.append_eq_nil.mp h with ⟨hn, _⟩
          simp [hn, containsSub]
      | cons b bs =>
          simp only [List.nil_append, h, containsSub, Bool.or_eq_true]
          exact Or.inl (h ▸ startsWith_self_append n suf)
  | cons a as ih =>
      simp only [List.cons_append, containsSub, Bool.or_eq_true]
      exact Or.inr ih

lemma mem_dropWhile_of_neg (p : Char → Bool) (c : Char) (l : List Char)
    (hm : c ∈ l) (hp : p c = false) : c ∈ l.dropWhile p := by
  induction l with
  | nil => cases hm
  | cons a as ih =>
      by_cases ha : p a = true
      · rw [List.dropWhile_cons_of_pos ha]
        rcases List.mem_cons.mp hm with h | h
        · exact absurd (h ▸ ha) (by simp [hp])
        · exact ih h
      · rw [List.dropWhile_cons_of_neg ha]
        exact hm

lemma mem_pyStrip (c : Char) (l : List Char) (hm : c ∈ l) (hp : isPySpace c = false) :
    c ∈ pyStrip l := by
  unfold pyStrip
  rw [List.mem_reverse]
  apply mem_dropWhile_of_neg _ _ _ _ hp
  rw [List.mem_reverse]
  exact mem_dropWhile_of_neg _ _ _ hm hp

lemma hasForbidden_iff (t : List Char) :
    hasForbidden t = true ↔ ∃ c ∈ forbiddenChars, c ∈ t := by
  simp [hasForbidden, List.any_eq_true, List.contains, List.elem_eq_mem]

lemma forbidden_not_space (c : Char) (hc : c ∈ forbiddenChars) : isPySpace c = false := by
  fin_cases hc <;> decide

lemma hasForbidden_pyStrip (l : List Char) (h : hasForbidden l = true) :
    hasForbidden (pyStrip l) = true := by
  rcases (hasForbidden_iff l).mp h with ⟨c, hc, hm⟩
  exact (hasForbidden_iff (pyStrip l)).mpr
    ⟨c, hc, mem_pyStrip c l hm (forbidden_not_space c hc)⟩

lemma pyStrip_ne_nil_of_forbidden (l : List Char) (h : hasForbidden l = true) :
    (pyStrip l).isEmpty = false := by
  rcases (hasForbidden_iff (pyStrip l)).mp (hasForbidden_pyStrip l h) with ⟨c, _, hm⟩
  rcases hx : pyStrip l with _ | ⟨a, as⟩
  · rw [hx] at hm; cases hm
  · rfl

lemma ne_nil_of_forbidden (l : List Char) (h : hasForbidden l = true) :
    l.isEmpty = false := by
  rcases (hasForbidden_iff l).mp h with ⟨c, _, hm⟩
  rcases hx : l with _ | ⟨a, as⟩
  · rw [hx] at hm; cases hm
  · rfl

lemma strip_ne_nil_of_len (l : List Char) (h3 : 3 ≤ (pyStrip l).length) :
    (pyStrip l).isEmpty = false := by
  rcases hx : pyStrip l with _ | ⟨a, as⟩
  · rw [hx] at h3; simp at h3
  · rfl

lemma ne_nil_of_strip_ne_nil (l : List Char) (h : (pyStrip l).isEmpty = false) :
    l.isEmpty = false := by
  rcases hx : l with _ | ⟨a, as⟩
  · rw [hx] at h; exact absurd h (by decide)
  · rfl

lemma validate_ok_of_bounds (topic : List Char)
    (h3 : 3 ≤ (pyStrip topic).length) (h200 : (pyStrip topic).length ≤ 200)
    (hf : hasForbidden (pyStrip topic) = false) :
    validate_topic_input topic = (true, []) := by
  have hne := strip_ne_nil_of_len topic h3
  have htne := ne_nil_of_strip_ne_nil topic hne
  have h1 : ¬ ((pyStrip topic).length < 3) := by omega
  have h2 : ¬ ((pyStrip topic).length > 200) := by omega
  simp [validate_topic_input, htne, hne, h1, h2, hf]

/-- C1 (amended): whenever the trimmed topic has length in [3, 200] and
contains none of the forbidden characters, `validate_topic_input` succeeds
with first component `True`; its second component is the empty message (the
caller recomputes `topic.strip()` as the canonical form). -/
theorem c1_valid_topic_succeeds (topic : List Char)
    (h3 : 3 ≤ (pyStrip topic).length) (h200 : (pyStrip topic).length ≤ 200)
    (hf : hasForbidden (pyStrip topic) = false) :
    (validate_topic_input topic).1 = true ∧ (validate_topic_input topic).2 = [] := by
  rw [validate_ok_of_bounds topic h3 h200 hf]
  exact ⟨rfl, rfl⟩

/-- C1 witness: the theorem applied at the concrete topic "abc". -/
theorem c1_valid_topic_succeeds_witness :
    (validate_topic_input "abc".toList).1 = true ∧
      (validate_topic_input "abc".toList).2 = [] :=
  c1_valid_topic_succeeds "abc".toList (by decide) (by decide) (by decide)

/-- C1 counterexample: on the valid topic "abc" the validator succeeds, but its
second component is the empty string, not the trimmed topic as the claim
states. -/
theorem c1_counterexample :
    (validate_topic_input "abc".toList).1 = true ∧
      (validate_topic_input "abc".toList).2 ≠ pyStrip "abc".toList := by
  decide

/-- C2 (amended): every input containing one of the forbidden characters fails
validation, but the "invalid characters" reason is reported exactly when the
trimmed length lies in [3, 200]; shorter inputs report the too-short reason
and longer inputs the too-long reason instead. -/
theorem c2_forbidden_always_fails (topic : List Char) (h : hasForbidden topic = true) :
    (validate_topic_input topic).1 = false ∧
      (validate_topic_input topic = (false, invalidCharsMsg) ↔
        3 ≤ (pyStrip topic).length ∧ (pyStrip topic).length ≤ 200) ∧
      ((pyStrip topic).length < 3 → validate_topic_input topic = (false, tooShortMsg)) ∧
      ((pyStrip topic).length > 200 → validate_topic_input topic = (false, tooLongMsg)) := by
  have hne := pyStrip_ne_nil_of_forbidden topic h
  have htne := ne_nil_of_forbidden topic h
  have hft := hasForbidden_pyStrip topic h
  have hshort : (pyStrip topic).length < 3 → validate_topic_input topic = (false, tooShortMsg) := by
    intro h3
    simp [validate_topic_input, htne, hne, h3]
  have hlong : (pyStrip topic).length > 200 → validate_topic_input topic = (false, tooLongMsg) := by
    intro h200
    have h1 : ¬ ((pyStrip topic).length < 3) := by omega
    simp [validate_topic_input, htne, hne, h1, h200]
  have hin : 3 ≤ (pyStrip topic).length → (pyStrip topic).length ≤ 200 →
      validate_topic_input topic = (false, invalidCharsMsg) := by
    intro h3 h200
    have h1 : ¬ ((pyStrip topic).length < 3) := by omega
    have h2 : ¬ ((pyStrip topic).length > 200) := by omega
    simp [validate_topic_input, htne, hne, h1, h2, hft]
  refine ⟨?_, ⟨?_, ?_⟩, hshort, hlong⟩
  · rcases Nat.lt_or_ge (pyStrip topic).length 3 with hl | hl
    · rw [hshort hl]
    · rcases le_or_lt (pyStrip topic).length 200 with hr | hr
      · rw [hin hl hr]
      · rw [hlong hr]
  · intro he
    rcases Nat.lt_or_ge (pyStrip topic).length 3 with hl | hl
    · rw [hshort hl] at he
      exact absurd (congrArg Prod.snd he) (by decide)
    · rcases le_or_lt (pyStrip topic).length 200 with hr | hr
      · exact ⟨hl, hr⟩
      · rw [hlong hr] at he
        exact absurd (congrArg Prod.snd he) (by decide)
  · rintro ⟨h3, h200⟩
    exact hin h3 h200

/-- C2 witness: the theorem applied at the concrete topic "ab<cd", whose
trimmed length 5 lies in bounds, so the invalid-characters reason is
reported. -/
theorem c2_forbidden_always_fails_witness :
    (validate_topic_input "ab<cd".toList).1 = false ∧
      validate_topic_input "ab<cd".toList = (false, invalidCharsMsg) :=
  ⟨(c2_forbidden_always_fails "ab<cd".toList (by decide)).1,
    ((c2_forbidden_always_fails "ab<cd".toList (by decide)).2.1).mpr (by decide)⟩

/-- C2 counterexample: "<a" contains the forbidden character `<` but its
trimmed length is 2, so the validator reports the too-short reason, not the
"invalid characters" reason the claim requires regardless of length. -/
theorem c2_counterexample :
    ('<' ∈ "<a".toList) ∧
      validate_topic_input "<a".toList = (false, tooShortMsg) ∧
      tooShortMsg ≠ invalidCharsMsg := by
  decide

/-- C3: the checks run in the fixed order empty, too-short, too-long,
forbidden-characters, and the first failing check alone fixes the reason; in
particular a trimmed 2-character topic containing `<` reports too-short and a
trimmed 201-character topic containing `<` reports too-long. -/
theorem c3_check_order (topic : List Char) :
    ((pyStrip topic).isEmpty = true → validate_topic_input topic = (false, pleaseEnterMsg)) ∧
      ((pyStrip topic).isEmpty = false → (pyStrip topic).length < 3 →
        validate_topic_input topic = (false, tooShortMsg)) ∧
      ((pyStrip topic).length > 200 → validate_topic_input topic = (false, tooLongMsg)) ∧
      (3 ≤ (pyStrip topic).length → (pyStrip topic).length ≤ 200 →
        hasForbidden (pyStrip topic) = true →
        validate_topic_input topic = (false, invalidCharsMsg)) ∧
      validate_topic_input ['<', 'a'] = (false, tooShortMsg) ∧
      validate_topic_input ('<' :: List.replicate 200 'a') = (false, tooLongMsg) := by
  refine ⟨?_, ?_, ?_, ?_, by decide, by decide⟩
  · intro h
    simp [validate_topic_input, h]
  · intro hne h3
    have htne := ne_nil_of_strip_ne_nil topic hne
    simp [validate_topic_input, htne, hne, h3]
  · intro h200
    have hne : (pyStrip topic).isEmpty = false := by
      rcases hx : pyStrip topic with _ | ⟨a, as⟩
      · rw [hx] at h200; simp at h200
      · rfl
    have htne := ne_nil_of_strip_ne_nil topic hne
    have h1 : ¬ ((pyStrip topic).length < 3) := by omega
    simp [validate_topic_input, htne, hne, h1, h200]
  · intro h3 h200 hf
    have hne := strip_ne_nil_of_len topic h3
    have htne := ne_nil_of_strip_ne_nil topic hne
    have h1 : ¬ ((pyStrip topic).length < 3) := by omega
    have h2 : ¬ ((pyStrip topic).length > 200) := by omega
    simp [validate_topic_input, htne, hne, h1, h2, hf]

/-- C3 witness: the theorem applied at the whitespace-only topic "  ",
discharging the hypothesis of the first conjunct. -/
theorem c3_check_order_witness :
    validate_topic_input "  ".toList = (false, pleaseEnterMsg) :=
  (c3_check_order "  ".toList).1 (by decide)

/-- C9: the first component of the validator is `True` exactly when its second
component is the empty string; every failure carries a non-empty reason. -/
theorem c9_valid_iff_empty_msg (topic : List Char) :
    (validate_topic_input topic).1 = true ↔ (validate_topic_input topic).2 = [] := by
  simp only [validate_topic_input]
  split_ifs <;> decide

/-- C4: the error classifier is a total function of the lowercased message
selecting exactly one of four categories by substring containment in the fixed
priority order api/key, then timeout/connection, then memory/resource, then
generic; a message with both "timeout" and "memory" is connectivity, and
"API key not found" is API-configuration. -/
theorem c4_classifier_priority (msg : List Char) :
    (containsSub "api".toList (pyLower msg) = true ∨
        containsSub "key".toList (pyLower msg) = true →
      classifyError msg = Guidance.apiConfig) ∧
      (containsSub "api".toList (pyLower msg) = false →
        containsSub "key".toList (pyLower msg) = false →
        (containsSub "timeout".toList (pyLower msg) = true ∨
          containsSub "connection".toList (pyLower msg) = true) →
        classifyError msg = Guidance.connectivity) ∧
      (containsSub "api".toList (pyLower msg) = false →
        containsSub "key".toList (pyLower msg) = false →
        containsSub "timeout".toList (pyLower msg) = false →
        containsSub "connection".toList (pyLower msg) = false →
        (containsSub "memory".toList (pyLower msg) = true ∨
          containsSub "resource".toList (pyLower msg) = true) →
        classifyError msg = Guidance.resource) ∧
      (containsSub "api".toList (pyLower msg) = false →
        containsSub "key".toList (pyLower msg) = false →
        containsSub "timeout".toList (pyLower msg) = false →
        containsSub "connection".toList (pyLower msg) = false →
        containsSub "memory".toList (pyLower msg) = false →
        containsSub "resource".toList (pyLower msg) = false →
        classifyError msg = Guidance.generic) ∧
      classifyError "Operation timeout while allocating memory".toList =
        Guidance.connectivity ∧
      classifyError "API key not found".toList = Guidance.apiConfig := by
  refine ⟨?_, ?_, ?_, ?_, by decide, by decide⟩
  · intro h
    rcases h with h | h <;> simp_all [classifyError]
  · intro h1 h2 h
    rcases h with h | h <;> simp_all [classifyError]
  · intro h1 h2 h3 h4 h
    rcases h with h | h <;> simp_all [classifyError]
  · intro h1 h2 h3 h4 h5 h6
    simp_all [classifyError]

/-- C4 witness: the theorem applied at the message "API key not found". -/
theorem c4_classifier_priority_witness :
    classifyError "API key not found".toList = Guidance.apiConfig :=
  (c4_classifier_priority "API key not found".toList).1 (Or.inl (by decide))

/-- C5: when validation passes and the crew kickoff raises, the submission
handler returns normally: the exception is converted into the "error occurred"
banner plus its classified guidance category, the inputs were dispatched, and
the session survives for another attempt. -/
theorem c5_dispatch_error_contained (st : SessionState) (topic yearStr e : List Char)
    (hv : (validate_topic_input topic).1 = true) :
    handleSubmission st topic yearStr (Except.error e) =
      { state := { st with lastTopic := pyStrip topic },
        dispatched := some (buildInputs topic yearStr),
        display := Display.errorGuidance (errorBanner e) (classifyError e) } := by
  simp [handleSubmission, hv]

/-- C5 witness: the theorem applied at topic "abc" and a concrete raised
error. -/
theorem c5_dispatch_error_contained_witness :
    handleSubmission ⟨false, []⟩ "abc".toList "2026".toList (Except.error "boom".toList) =
      { state := { researchCompleted := false, lastTopic := pyStrip "abc".toList },
        dispatched := some (buildInputs "abc".toList "2026".toList),
        display := Display.errorGuidance (errorBanner "boom".toList)
          (classifyError "boom".toList) } :=
  c5_dispatch_error_contained ⟨false, []⟩ "abc".toList "2026".toList "boom".toList (by decide)

/-- C6: the rendered content is the `raw` field verbatim when present, and the
generic string form otherwise; extraction is total. -/
theorem c6_render_content (r : CrewResult) :
    (∀ c, r.raw = some c → extractContent r = c) ∧
      (r.raw = none → extractContent r = r.strForm) := by
  constructor
  · intro c h
    simp [extractContent, h]
  · intro h
    simp [extractContent, h]

/-- C6 witness: the theorem applied at a result exposing `raw`. -/
theorem c6_render_content_witness :
    extractContent ⟨some "report body".toList, "other".toList⟩ = "report body".toList :=
  (c6_render_content ⟨some "report body".toList, "other".toList⟩).1 "report body".toList rfl

/-- C7: on a valid submission, the mapping handed to the crew kickoff has
exactly the keys `topic`, bound to the trimmed topic, and `current_year`,
bound to the current year rendered as text. -/
theorem c7_inputs_mapping (st : SessionState) (topic yearStr : List Char)
    (k : Except (List Char) CrewResult)
    (hv : (validate_topic_input topic).1 = true) :
    (handleSubmission st topic yearStr k).dispatched =
      some [("topic".toList, pyStrip topic), ("current_year".toList, yearStr)] := by
  cases k <;> simp [handleSubmission, hv, buildInputs]

/-- C7 witness: the theorem applied at topic " abc " and year text "2026". -/
theorem c7_inputs_mapping_witness :
    (handleSubmission ⟨false, []⟩ " abc ".toList "2026".toList
        (Except.error "x".toList)).dispatched =
      some [("topic".toList, pyStrip " abc ".toList), ("current_year".toList, "2026".toList)] :=
  c7_inputs_mapping ⟨false, []⟩ " abc ".toList "2026".toList (Except.error "x".toList)
    (by decide)

/-- C8 counterexample: at a concrete instant the offered filename is
`ai_news_report_20240101_120000.md`; it does not begin with `report_`, so it is
not of the form `report_<YYYYMMDD_HHMMSS>`. -/
theorem c8_counterexample :
    reportFileName ⟨2024, 1, 1, 12, 0, 0⟩ = "ai_news_report_20240101_120000.md".toList ∧
      startsWith "report_".toList (reportFileName ⟨2024, 1, 1, 12, 0, 0⟩) = false := by
  decide

/-- C8 (amended): the filename of the artifact is
`ai_news_report_<YYYYMMDD_HHMMSS>.md` — it embeds the current timestamp at
second-level resolution, preceded by `report_`, as a substring — and the
content type is markdown. -/
theorem c8_download_artifact (t : Timestamp) :
    reportFileName t = "ai_news_report_".toList ++ strftimeCompact t ++ ".md".toList ∧
      containsSub ("report_".toList ++ strftimeCompact t) (reportFileName t) = true ∧
      reportMime = "text/markdown".toList := by
  refine ⟨rfl, ?_, rfl⟩
  have hsplit : "ai_news_report_".toList = "ai_news_".toList ++ "report_".toList := by decide
  have h : reportFileName t =
      "ai_news_".toList ++ (("report_".toList ++ strftimeCompact t) ++ ".md".toList) := by
    show "ai_news_report_".toList ++ strftimeCompact t ++ ".md".toList =
      "ai_news_".toList ++ (("report_".toList ++ strftimeCompact t) ++ ".md".toList)
    rw [hsplit]
    simp [List.append_assoc]
  rw [h]
  exact containsSub_of_parts _ _ _

/-- C10: a submission whose topic fails validation never reaches the crew and
leaves the session state untouched; once validation succeeds the trimmed topic
is stored and the dispatch is performed. -/
theorem c10_invalid_no_dispatch (st : SessionState) (topic yearStr : List Char)
    (k : Except (List Char) CrewResult) :
    ((validate_topic_input topic).1 = false →
      handleSubmission st topic yearStr k =
        { state := st, dispatched := none,
          display := Display.validationError (validate_topic_input topic).2 }) ∧
      ((validate_topic_input topic).1 = true →
        (handleSubmission st topic yearStr k).state.lastTopic = pyStrip topic ∧
          (handleSubmission st topic yearStr k).dispatched =
            some (buildInputs topic yearStr)) := by
  constructor
  · intro h
    simp [handleSubmission, h]
  · intro h
    cases k <;> simp [handleSubmission, h]

/-- C10 witness: the theorem applied at the invalid topic "AI" with a primed
session state, showing the state is returned unchanged and nothing is
dispatched. -/
theorem c10_invalid_no_dispatch_witness :
    handleSubmission ⟨true, "old".toList⟩ "AI".toList "2026".toList
        (Except.error "x".toList) =
      { state := ⟨true, "old".toList⟩, dispatched := none,
        display := Display.validationError (validate_topic_input "AI".toList).2 } :=
  (c10_invalid_no_dispatch ⟨true, "old".toList⟩ "AI".toList "2026".toList
    (Except.error "x".toList)).1 (by decide)
